import Mathlib

/-!
Verification of the desired-state reconciliation core of
`lib/ansible/modules/cloud/docker/docker_swarm_service.py`.

The embedding mirrors the `DockerService` / `DockerServiceManager` classes:

* A `DockerService` value is the flat service spec built by `__init__` plus
  the normalization steps; Python `None` becomes `Option.none`; Python lists
  become Lean lists; Python dicts whose values the claims never inspect
  (labels, log driver options, ...) become association lists, compared by
  plain list equality exactly as the module compares them with `!=`.
* `DifferenceTracker` entries carry `(name, parameter, active)` in the
  source; no claim inspects the recorded values, only which field names are
  present and whether the tracker is empty, so the tracker is embedded as
  the ordered list of recorded field names.
* Floating point CPU counts only ever flow through equality tests and a
  multiplication by 1e9 in the builders, so they are embedded as rationals.
-/

set_option maxHeartbeats 1000000
set_option maxRecDepth 2048

namespace DockerSwarm

/-- Python `needle in haystack` on strings, as character lists. -/
def strContainsSub (needle : List Char) : List Char → Bool
  | [] => needle.isEmpty
  | c :: rest => needle.isPrefixOf (c :: rest) || strContainsSub needle rest

/-- One element of the `publish` list: the dict
`{'protocol': ..., 'mode': ..., 'published_port': ..., 'target_port': ...}`
built both by `from_ansible_params` and by `get_service`. -/
structure PublishItem where
  protocol : String
  mode : Option String
  published_port : Int
  target_port : Int
deriving DecidableEq

/-- The sort key `operator.itemgetter('published_port', 'target_port', 'protocol')`. -/
def pubKey (p : PublishItem) : Int × Int × String :=
  (p.published_port, p.target_port, p.protocol)

/-- Python `<` on the `(published_port, target_port, protocol)` key tuples;
the string tail is the lexicographic code-point order (the order on
`List Char`). -/
def keyLt : Int × Int × String → Int × Int × String → Bool
  | (a1, a2, a3), (b1, b2, b3) =>
    if a1 < b1 then true
    else if b1 < a1 then false
    else if a2 < b2 then true
    else if b2 < a2 then false
    else decide (a3.data < b3.data)

def pubLt (a b : PublishItem) : Bool := keyLt (pubKey a) (pubKey b)

/-- The (total, transitive) ordering `sorted` arranges the publish items by. -/
def pubLe (a b : PublishItem) : Bool := !pubLt b a

def pubLeP (a b : PublishItem) : Prop := pubLe a b = true

instance : DecidableRel pubLeP := fun a b => inferInstanceAs (Decidable (pubLe a b = true))

/-- Python truthiness of `publish_item.get('mode')`: `None` and `''` are falsy. -/
def pubModeTruthy : Option String → Bool
  | none => false
  | some m => decide (m ≠ "")

/-- One element of the `mounts` list. -/
structure MountItem where
  readonly : Bool
  type : String
  source : String
  target : String
deriving DecidableEq

/-- One element of the `configs` list. -/
structure ConfigItem where
  config_id : String
  config_name : String
  filename : String
  uid : Int
  gid : Int
  mode : Int
deriving DecidableEq

/-- One element of the `secrets` list. -/
structure SecretItem where
  secret_id : String
  secret_name : String
  filename : String
  uid : Int
  gid : Int
  mode : Int
deriving DecidableEq

/-- The healthcheck dict (keys `test`, `interval`, `timeout`, `start_period`,
`retries`; a key that is absent from the dict is `none`). -/
structure Healthcheck where
  test : Option (List String)
  interval : Option Int
  timeout : Option Int
  start_period : Option Int
  retries : Option Int
deriving DecidableEq

/-- The flat service spec: the attributes set by `DockerService.__init__`,
with the same defaults (`image = ""`, `mode = "replicated"`, `replicas = -1`,
everything else `None`). -/
structure DockerService where
  image : String := ""
  command : Option (List String) := none
  args : Option (List String) := none
  endpoint_mode : Option String := none
  dns : Option (List String) := none
  healthcheck : Option Healthcheck := none
  healthcheck_disabled : Option Bool := none
  hostname : Option String := none
  tty : Option Bool := none
  dns_search : Option (List String) := none
  dns_options : Option (List String) := none
  env : Option (List String) := none
  force_update : Option Int := none
  groups : Option (List String) := none
  log_driver : Option String := none
  log_driver_options : Option (List (String × String)) := none
  labels : Option (List (String × String)) := none
  container_labels : Option (List (String × String)) := none
  limit_cpu : Option Rat := none
  limit_memory : Option Int := none
  reserve_cpu : Option Rat := none
  reserve_memory : Option Int := none
  mode : String := "replicated"
  user : Option String := none
  mounts : Option (List MountItem) := none
  configs : Option (List ConfigItem) := none
  secrets : Option (List SecretItem) := none
  constraints : Option (List String) := none
  networks : Option (List String) := none
  stop_signal : Option String := none
  publish : Option (List PublishItem) := none
  placement_preferences : Option (List (List (String × String))) := none
  replicas : Option Int := some (-1)
  service_id : Option String := none
  service_version : Option Int := none
  restart_policy : Option String := none
  restart_policy_attempts : Option Int := none
  restart_policy_delay : Option Int := none
  restart_policy_window : Option Int := none
  update_delay : Option Int := none
  update_parallelism : Option Int := none
  update_failure_action : Option String := none
  update_monitor : Option Int := none
  update_max_failure_ratio : Option Rat := none
  update_order : Option String := none
  working_dir : Option String := none
deriving DecidableEq

/-- Python truthiness of `self.user` (a string or `None`). -/
def userTruthy : Option String → Bool
  | none => false
  | some u => decide (u ≠ "")

/-- Python truthiness of `self.force_update` (an int or `None`). -/
def forceUpdateTruthy : Option Int → Bool
  | none => false
  | some n => decide (n ≠ 0)

/-- Python truthiness of `self.healthcheck_disabled` (a bool or `None`). -/
def hcDisabledTruthy : Option Bool → Bool
  | some true => true
  | _ => false

/-- `DockerService.has_healthcheck_changed` (the source names its argument
`old_publish`; it is the observed spec). -/
def hasHealthcheckChanged (self os : DockerService) : Bool :=
  if self.healthcheck_disabled = some false ∧ self.healthcheck = none then false
  else if hcDisabledTruthy self.healthcheck_disabled ∧ os.healthcheck = none then false
  else decide (self.healthcheck ≠ os.healthcheck)

/-- `DockerService.has_publish_changed`.  Both sides are sorted by
`(published_port, target_port, protocol)`; for a pair whose desired side has
a falsy `mode`, the `mode` key is left out of both dicts, which amounts to
comparing the remaining three fields. -/
def hasPublishChanged (selfPublish oldPublishArg : Option (List PublishItem)) : Bool :=
  match selfPublish with
  | none => false
  | some publish =>
    let old_publish := oldPublishArg.getD []
    if publish.length ≠ old_publish.length then true
    else
      let publishSorted := List.insertionSort pubLeP publish
      let oldSorted := List.insertionSort pubLeP old_publish
      (publishSorted.zip oldSorted).any fun pq =>
        if pubModeTruthy pq.1.mode then decide (pq.1 ≠ pq.2)
        else decide (¬ (pq.1.protocol = pq.2.protocol ∧
          pq.1.published_port = pq.2.published_port ∧
          pq.1.target_port = pq.2.target_port))

/-- `DockerService.has_image_changed`: when the desired reference has no
`@digest` suffix, the observed reference is truncated at its first `@`
(`old_image.split('@')[0]`) before the comparison; returns the verdict and
the (possibly truncated) observed reference. -/
def hasImageChanged (selfImage oldImage : String) : Bool × String :=
  let old_image :=
    if selfImage.data.contains '@' then oldImage
    else String.mk (oldImage.data.takeWhile fun c => decide (c ≠ '@'))
  (decide (selfImage ≠ old_image), old_image)

/-- `if cond: differences.add(name, ...)` — the tracker keeps insertion
order; only the field names are retained (no claim reads the values). -/
def addIf (cond : Bool) (name : String) (t : List String) : List String :=
  if cond then t ++ [name] else t

/-- `DockerService.compare(self, os)`: returns
`(changed, differences, needs_rebuild, force_update)`.  Conditions appear in
source order; `X.isSome && decide (X ≠ ...)` is `X is not None and X != ...`,
and `os.Y.getD []` is `(os.Y or [])` / `(os.Y or {})` (for a list value the
two agree: an empty observed list is replaced by the empty list either way). -/
def compare (self os : DockerService) : Bool × List String × Bool × Bool :=
  let d : List String := []
  let d := addIf (self.endpoint_mode.isSome && decide (self.endpoint_mode ≠ os.endpoint_mode))
    "endpoint_mode" d
  let d := addIf (self.env.isSome && decide (self.env ≠ some (os.env.getD []))) "env" d
  let d := addIf (self.log_driver.isSome && decide (self.log_driver ≠ os.log_driver))
    "log_driver" d
  let d := addIf (self.log_driver_options.isSome &&
    decide (self.log_driver_options ≠ some (os.log_driver_options.getD []))) "log_opt" d
  let modeDiff := decide (self.mode ≠ os.mode)
  let needs_rebuild := modeDiff
  let d := addIf modeDiff "mode" d
  let d := addIf (self.mounts.isSome && decide (self.mounts ≠ some (os.mounts.getD []))) "mounts" d
  let d := addIf (self.configs.isSome && decide (self.configs ≠ some (os.configs.getD [])))
    "configs" d
  let d := addIf (self.secrets.isSome && decide (self.secrets ≠ some (os.secrets.getD [])))
    "secrets" d
  let netDiff := self.networks.isSome && decide (self.networks ≠ some (os.networks.getD []))
  let d := addIf netDiff "networks" d
  let needs_rebuild := needs_rebuild || netDiff
  let d := addIf (decide (self.replicas ≠ os.replicas)) "replicas" d
  let d := addIf (self.command.isSome && decide (self.command ≠ some (os.command.getD [])))
    "command" d
  let d := addIf (self.args.isSome && decide (self.args ≠ some (os.args.getD []))) "args" d
  let d := addIf (self.constraints.isSome &&
    decide (self.constraints ≠ some (os.constraints.getD []))) "constraints" d
  let d := addIf (self.placement_preferences.isSome &&
    decide (self.placement_preferences ≠ some (os.placement_preferences.getD [])))
    "placement_preferences" d
  let d := addIf (self.groups.isSome && decide (self.groups ≠ some (os.groups.getD [])))
    "groups" d
  let d := addIf (self.labels.isSome && decide (self.labels ≠ some (os.labels.getD [])))
    "labels" d
  let d := addIf (self.limit_cpu.isSome && decide (self.limit_cpu ≠ os.limit_cpu)) "limit_cpu" d
  let d := addIf (self.limit_memory.isSome && decide (self.limit_memory ≠ os.limit_memory))
    "limit_memory" d
  let d := addIf (self.reserve_cpu.isSome && decide (self.reserve_cpu ≠ os.reserve_cpu))
    "reserve_cpu" d
  let d := addIf (self.reserve_memory.isSome && decide (self.reserve_memory ≠ os.reserve_memory))
    "reserve_memory" d
  let d := addIf (self.container_labels.isSome &&
    decide (self.container_labels ≠ some (os.container_labels.getD []))) "container_labels" d
  let d := addIf (self.stop_signal.isSome && decide (self.stop_signal ≠ os.stop_signal))
    "stop_signal" d
  let d := addIf (hasPublishChanged self.publish os.publish) "publish" d
  let d := addIf (self.restart_policy.isSome &&
    decide (self.restart_policy ≠ os.restart_policy)) "restart_policy" d
  let d := addIf (self.restart_policy_attempts.isSome &&
    decide (self.restart_policy_attempts ≠ os.restart_policy_attempts))
    "restart_policy_attempts" d
  let d := addIf (self.restart_policy_delay.isSome &&
    decide (self.restart_policy_delay ≠ os.restart_policy_delay)) "restart_policy_delay" d
  let d := addIf (self.restart_policy_window.isSome &&
    decide (self.restart_policy_window ≠ os.restart_policy_window)) "restart_policy_window" d
  let d := addIf (self.update_delay.isSome && decide (self.update_delay ≠ os.update_delay))
    "update_delay" d
  let d := addIf (self.update_parallelism.isSome &&
    decide (self.update_parallelism ≠ os.update_parallelism)) "update_parallelism" d
  let d := addIf (self.update_failure_action.isSome &&
    decide (self.update_failure_action ≠ os.update_failure_action)) "update_failure_action" d
  let d := addIf (self.update_monitor.isSome &&
    decide (self.update_monitor ≠ os.update_monitor)) "update_monitor" d
  let d := addIf (self.update_max_failure_ratio.isSome &&
    decide (self.update_max_failure_ratio ≠ os.update_max_failure_ratio))
    "update_max_failure_ratio" d
  let d := addIf (self.update_order.isSome && decide (self.update_order ≠ os.update_order))
    "update_order" d
  let imageChange := hasImageChanged self.image os.image
  let d := addIf imageChange.1 "image" d
  let d := addIf (userTruthy self.user && decide (self.user ≠ os.user)) "user" d
  let d := addIf (self.dns.isSome && decide (self.dns ≠ some (os.dns.getD []))) "dns" d
  let d := addIf (self.dns_search.isSome &&
    decide (self.dns_search ≠ some (os.dns_search.getD []))) "dns_search" d
  let d := addIf (self.dns_options.isSome &&
    decide (self.dns_options ≠ some (os.dns_options.getD []))) "dns_options" d
  let d := addIf (hasHealthcheckChanged self os) "healthcheck" d
  let d := addIf (self.hostname.isSome && decide (self.hostname ≠ os.hostname)) "hostname" d
  let d := addIf (self.tty.isSome && decide (self.tty ≠ os.tty)) "tty" d
  let d := addIf (self.working_dir.isSome && decide (self.working_dir ≠ os.working_dir))
    "working_dir" d
  let force_update := forceUpdateTruthy self.force_update
  (!d.isEmpty || force_update, d, needs_rebuild, force_update)

/-- The replica-resolution step of `DockerService.from_ansible_params`
(the `if ap['replicas'] == -1` block): `-1` inherits the observed replica
count when an observed service was supplied, else defaults to `1`; any other
requested value is stored unchanged. -/
def resolveReplicas (apReplicas : Int) (old_service : Option DockerService) : Option Int :=
  if apReplicas = -1 then
    match old_service with
    | some old => old.replicas
    | none => some 1
  else some apReplicas

/-- The exceptions `run` can raise, as seen by `run_safe`: an `APIError`
carrying its `explanation` string, or any other error. -/
inductive RunError where
  | api (explanation : List Char)
  | other (msg : List Char)
deriving DecidableEq

/-- The outcome of `run_safe`, together with how many times `run` was called
and how many 1-second sleeps were performed. -/
structure SafeResult (α : Type) where
  result : Except RunError α
  attemptsUsed : Nat
  sleeps : Nat

/-- The retry trigger `'update out of sequence' in str(e.explanation)`. -/
def conflictNeedle : List Char := "update out of sequence".data

/-- The `while True` loop of `DockerServiceManager.run_safe`, with the
outcome of the `k`-th call to `run` supplied by `attempts`.  `retries` is
the mutable `self.retries` counter; the `r + 1, true` branch is
`self.retries > 0 and 'update out of sequence' in str(e.explanation)`,
which decrements the counter and sleeps one second before retrying. -/
def runSafeAux {α : Type} (attempts : Nat → Except RunError α) :
    Nat → Nat → Nat → SafeResult α
  | 0, k, sleeps =>
    match attempts k with
    | .ok a => ⟨.ok a, k + 1, sleeps⟩
    | .error (.api ex) => ⟨.error (.api ex), k + 1, sleeps⟩
    | .error (.other e) => ⟨.error (.other e), k + 1, sleeps⟩
  | r + 1, k, sleeps =>
    match attempts k with
    | .ok a => ⟨.ok a, k + 1, sleeps⟩
    | .error (.api ex) =>
      if strContainsSub conflictNeedle ex then runSafeAux attempts r (k + 1) (sleeps + 1)
      else ⟨.error (.api ex), k + 1, sleeps⟩
    | .error (.other e) => ⟨.error (.other e), k + 1, sleeps⟩

/-- `run_safe` starts with `self.retries = 2` (set by `__init__`). -/
def runSafe {α : Type} (attempts : Nat → Except RunError α) : SafeResult α :=
  runSafeAux attempts 2 0 0

/-- One entry of `get_networks_names_ids()`. -/
structure NetworkNameId where
  name : String
  id : String
deriving DecidableEq

/-- `docker.types.Mount(...)` as built by `build_container_spec`. -/
structure MountDoc where
  target : String
  source : String
  type : String
  read_only : Bool
deriving DecidableEq

/-- `docker.types.ConfigReference(...)`. -/
structure ConfigDoc where
  config_id : String
  config_name : String
  filename : String
  uid : Int
  gid : Int
  mode : Int
deriving DecidableEq

/-- `docker.types.SecretReference(...)`. -/
structure SecretDoc where
  secret_id : String
  secret_name : String
  filename : String
  uid : Int
  gid : Int
  mode : Int
deriving DecidableEq

/-- `docker.types.DNSConfig(**dns_config_args)`: a keyword argument that was
not passed is `none`. -/
structure DNSConfigDoc where
  nameservers : Option (List String)
  search : Option (List String)
  options : Option (List String)
deriving DecidableEq

/-- `docker.types.ContainerSpec(self.image, **container_spec_args)`. -/
structure ContainerSpecDoc where
  image : String
  command : Option (List String)
  args : Option (List String)
  env : Option (List String)
  user : Option String
  labels : Option (List (String × String))
  healthcheck : Option Healthcheck
  hostname : Option String
  stop_signal : Option String
  tty : Option Bool
  groups : Option (List String)
  workdir : Option String
  secrets : Option (List SecretDoc)
  mounts : Option (List MountDoc)
  dns_config : Option DNSConfigDoc
  configs : Option (List ConfigDoc)
deriving DecidableEq

/-- `docker.types.Placement(...)`; each preference renders as the dict
`{key.title(): {'SpreadDescriptor': value}}`, kept here as the
`(titled key, value)` pair. -/
structure PlacementDoc where
  constraints : Option (List String)
  preferences : Option (List (String × String))
deriving DecidableEq

/-- `docker.types.UpdateConfig(...)`. -/
structure UpdateConfigDoc where
  parallelism : Option Int
  delay : Option Int
  failure_action : Option String
  monitor : Option Int
  max_failure_ratio : Option Rat
  order : Option String
deriving DecidableEq

/-- `docker.types.DriverConfig(...)`. -/
structure DriverConfigDoc where
  name : Option String
  options : Option (List (String × String))
deriving DecidableEq

/-- `docker.types.RestartPolicy(...)`. -/
structure RestartPolicyDoc where
  condition : Option String
  delay : Option Int
  max_attempts : Option Int
  window : Option Int
deriving DecidableEq

/-- `docker.types.Resources(...)`. -/
structure ResourcesDoc where
  cpu_limit : Option Int
  mem_limit : Option Int
  cpu_reservation : Option Int
  mem_reservation : Option Int
deriving DecidableEq

/-- `docker.types.TaskTemplate(container_spec=..., ...)`. -/
structure TaskTemplateDoc where
  container_spec : ContainerSpecDoc
  placement : Option PlacementDoc
  log_driver : Option DriverConfigDoc
  restart_policy : Option RestartPolicyDoc
  resources : Option ResourcesDoc
  force_update : Option Int
deriving DecidableEq

/-- `docker.types.ServiceMode(self.mode, replicas=self.replicas)`. -/
structure ServiceModeDoc where
  mode : String
  replicas : Option Int
deriving DecidableEq

/-- `docker.types.EndpointSpec(**endpoint_spec_args)`; `ports` is the dict
keyed by `int(published_port)` with `(target, protocol[, mode])` values. -/
structure PortVal where
  target_port : Int
  protocol : String
  mode : Option String
deriving DecidableEq

structure EndpointSpecDoc where
  ports : Option (List (Int × PortVal))
  mode : Option String
deriving DecidableEq

/-- The keyword dict passed to `create_service` / `update_service`. -/
structure ServiceDoc where
  task_template : TaskTemplateDoc
  mode : ServiceModeDoc
  update_config : Option UpdateConfigDoc
  networks : Option (List String)
  endpoint_spec : Option EndpointSpecDoc
  labels : Option (List (String × String))
deriving DecidableEq

/-- Python `str.title()` restricted to what the module feeds it (placement
preference keys): the first letter of each alphabetic run is upper-cased,
the rest lower-cased. -/
def titleChars : List Char → Bool → List Char
  | [], _ => []
  | c :: rest, startWord =>
    if c.isAlpha then
      (if startWord then c.toUpper else c.toLower) :: titleChars rest false
    else
      c :: titleChars rest true

def strTitle (s : String) : String := String.mk (titleChars s.data true)

/-- `DockerService.build_container_spec`. -/
def buildContainerSpec (s : DockerService) : ContainerSpecDoc :=
  let mounts := s.mounts.map fun ms => ms.map fun m =>
    ({ target := m.target, source := m.source, type := m.type,
       read_only := m.readonly } : MountDoc)
  let configs := s.configs.map fun cs => cs.map fun c =>
    ({ config_id := c.config_id, config_name := c.config_name, filename := c.filename,
       uid := c.uid, gid := c.gid, mode := c.mode } : ConfigDoc)
  let secrets := s.secrets.map fun ss => ss.map fun c =>
    ({ secret_id := c.secret_id, secret_name := c.secret_name, filename := c.filename,
       uid := c.uid, gid := c.gid, mode := c.mode } : SecretDoc)
  let dns_config :=
    if s.dns.isSome || s.dns_search.isSome || s.dns_options.isSome then
      some ({ nameservers := s.dns, search := s.dns_search,
              options := s.dns_options } : DNSConfigDoc)
    else none
  { image := s.image, command := s.command, args := s.args, env := s.env,
    user := s.user, labels := s.container_labels, healthcheck := s.healthcheck,
    hostname := s.hostname, stop_signal := s.stop_signal, tty := s.tty,
    groups := s.groups, workdir := s.working_dir, secrets := secrets,
    mounts := mounts, dns_config := dns_config, configs := configs }

/-- `DockerService.build_placement` (`None` when no argument was set). -/
def buildPlacement (s : DockerService) : Option PlacementDoc :=
  if s.constraints.isSome || s.placement_preferences.isSome then
    some { constraints := s.constraints,
           preferences := s.placement_preferences.map fun prefs =>
             prefs.flatMap fun pref => pref.map fun kv => (strTitle kv.1, kv.2) }
  else none

/-- `DockerService.build_update_config`. -/
def buildUpdateConfig (s : DockerService) : Option UpdateConfigDoc :=
  if s.update_parallelism.isSome || s.update_delay.isSome ||
      s.update_failure_action.isSome || s.update_monitor.isSome ||
      s.update_max_failure_ratio.isSome || s.update_order.isSome then
    some { parallelism := s.update_parallelism, delay := s.update_delay,
           failure_action := s.update_failure_action, monitor := s.update_monitor,
           max_failure_ratio := s.update_max_failure_ratio, order := s.update_order }
  else none

/-- `DockerService.build_log_driver`. -/
def buildLogDriver (s : DockerService) : Option DriverConfigDoc :=
  if s.log_driver.isSome || s.log_driver_options.isSome then
    some { name := s.log_driver, options := s.log_driver_options }
  else none

/-- `DockerService.build_restart_policy`. -/
def buildRestartPolicy (s : DockerService) : Option RestartPolicyDoc :=
  if s.restart_policy.isSome || s.restart_policy_delay.isSome ||
      s.restart_policy_attempts.isSome || s.restart_policy_window.isSome then
    some { condition := s.restart_policy, delay := s.restart_policy_delay,
           max_attempts := s.restart_policy_attempts, window := s.restart_policy_window }
  else none

/-- Python `int(q * 1e9)` for the CPU fractions: truncation toward zero. -/
def cpuNano (q : Rat) : Int :=
  let r := q * 1000000000
  if r < 0 then -Int.floor (-r) else Int.floor r

/-- `DockerService.build_resources`. -/
def buildResources (s : DockerService) : Option ResourcesDoc :=
  if s.limit_cpu.isSome || s.limit_memory.isSome ||
      s.reserve_cpu.isSome || s.reserve_memory.isSome then
    some { cpu_limit := s.limit_cpu.map cpuNano, mem_limit := s.limit_memory,
           cpu_reservation := s.reserve_cpu.map cpuNano,
           mem_reservation := s.reserve_memory }
  else none

/-- `DockerService.build_task_template` (`force_update` is only passed when
truthy). -/
def buildTaskTemplate (s : DockerService) (container_spec : ContainerSpecDoc)
    (placement : Option PlacementDoc) : TaskTemplateDoc :=
  { container_spec := container_spec, placement := placement,
    log_driver := buildLogDriver s, restart_policy := buildRestartPolicy s,
    resources := buildResources s,
    force_update := if forceUpdateTruthy s.force_update then s.force_update else none }

/-- `DockerService.build_service_mode`.  NOTE: the source mutates the spec:
`if self.mode == 'global': self.replicas = None`; the updated spec is
returned alongside the document. -/
def buildServiceMode (s : DockerService) : ServiceModeDoc × DockerService :=
  let s := if s.mode = "global" then { s with replicas := none } else s
  ({ mode := s.mode, replicas := s.replicas }, s)

/-- `DockerService.build_networks`: resolves each desired network name to an
id via the name/id table; an unknown name (or an empty id) raises. -/
def resolveNetworkId (docker_networks : List NetworkNameId) (network_name : String) :
    Except (List Char) String :=
  match (docker_networks.filter fun n => n.name = network_name).head? with
  | some entry =>
    if entry.id ≠ "" then .ok entry.id
    else .error ("no docker networks named: ".data ++ network_name.data)
  | none => .error ("no docker networks named: ".data ++ network_name.data)

def buildNetworks (networks : Option (List String)) (docker_networks : List NetworkNameId) :
    Except (List Char) (Option (List String)) :=
  match networks with
  | none => .ok none
  | some names => (names.mapM (resolveNetworkId docker_networks)).map some

/-- Python dict insertion keyed by `int(published_port)`: a repeated key
overwrites in place, a new key appends. -/
def insertPort (m : List (Int × PortVal)) (k : Int) (v : PortVal) : List (Int × PortVal) :=
  match m with
  | [] => [(k, v)]
  | (k0, v0) :: rest =>
    if k0 = k then (k0, v) :: rest else (k0, v0) :: insertPort rest k v

/-- `DockerService.build_endpoint_spec`. -/
def buildEndpointSpec (s : DockerService) : Option EndpointSpecDoc :=
  let ports := s.publish.map fun pubs =>
    pubs.foldl (fun m port =>
      insertPort m port.published_port
        { target_port := port.target_port, protocol := port.protocol,
          mode := if pubModeTruthy port.mode then port.mode else none }) []
  if s.publish.isSome || s.endpoint_mode.isSome then
    some { ports := ports, mode := s.endpoint_mode }
  else none

/-- `DockerService.build_docker_service(self, docker_networks)`: builds the
keyword dict for `create_service` / `update_service`, threading the spec
because `build_service_mode` mutates it.  `if networks:` and
`if self.labels:` are Python truthiness: `None` and empty are both skipped. -/
def buildDockerService (s : DockerService) (docker_networks : List NetworkNameId) :
    Except (List Char) (ServiceDoc × DockerService) :=
  let container_spec := buildContainerSpec s
  let placement := buildPlacement s
  let task_template := buildTaskTemplate s container_spec placement
  let update_config := buildUpdateConfig s
  let modeAndSpec := buildServiceMode s
  let s := modeAndSpec.2
  match buildNetworks s.networks docker_networks with
  | .error e => .error e
  | .ok networks =>
    let endpoint_spec := buildEndpointSpec s
    .ok ({ task_template := task_template, mode := modeAndSpec.1,
           update_config := update_config,
           networks := match networks with
             | some (n :: rest) => some (n :: rest)
             | _ => none,
           endpoint_spec := endpoint_spec,
           labels := match s.labels with
             | some (l :: rest) => some (l :: rest)
             | _ => none }, s)

/-- The mutating client calls a reconciliation pass can issue. -/
inductive Action where
  | remove
  | create
  | update
deriving DecidableEq

/-- What `DockerServiceManager.run` returns
(`msg, changed, rebuilt, differences, facts`), plus the mutating client
calls that were issued along the way.  `facts` keeps the spec object whose
`get_facts()` dict would be returned (`none` when `run` returns `{}`). -/
structure RunResult where
  msg : String
  changed : Bool
  rebuilt : Bool
  diffs : List String
  actions : List Action
  facts : Option DockerService
deriving DecidableEq

/-- The decision-and-apply part of `DockerServiceManager.run`
(lines after normalization: `current_service` is the observed spec or
`None`, `new_service` the normalized desired spec, `state` the `state`
module parameter, `check_mode` the dry-run flag).  `create_service` and
`update_service` build the service document first, so they can fail
(unknown network) and they mutate `new_service`; in check mode they are
never invoked.  Failures propagate as `Except.error`. -/
def runModel (check_mode : Bool) (state : String) (current_service : Option DockerService)
    (new_service : DockerService) (docker_networks : List NetworkNameId) :
    Except (List Char) RunResult :=
  match current_service with
  | some _cur =>
    if state = "absent" then
      .ok { msg := "Service removed", changed := true, rebuilt := false, diffs := [],
            actions := if check_mode then [] else [.remove], facts := none }
    else
      let cmp := compare new_service _cur
      let changed := cmp.1
      let differences := cmp.2.1
      let need_rebuild := cmp.2.2.1
      let force_update := cmp.2.2.2
      if changed then
        if need_rebuild then
          if check_mode then
            .ok { msg := "Service rebuilt", changed := changed, rebuilt := true,
                  diffs := differences, actions := [], facts := some new_service }
          else
            match buildDockerService new_service docker_networks with
            | .error e => .error e
            | .ok built =>
              .ok { msg := "Service rebuilt", changed := changed, rebuilt := true,
                    diffs := differences, actions := [.remove, .create],
                    facts := some built.2 }
        else
          if check_mode then
            .ok { msg := "Service updated", changed := changed, rebuilt := false,
                  diffs := differences, actions := [], facts := some new_service }
          else
            match buildDockerService new_service docker_networks with
            | .error e => .error e
            | .ok built =>
              .ok { msg := "Service updated", changed := changed, rebuilt := false,
                    diffs := differences, actions := [.update], facts := some built.2 }
      else
        if force_update then
          if check_mode then
            .ok { msg := "Service forcefully updated", changed := true, rebuilt := false,
                  diffs := differences, actions := [], facts := some new_service }
          else
            match buildDockerService new_service docker_networks with
            | .error e => .error e
            | .ok built =>
              .ok { msg := "Service forcefully updated", changed := true, rebuilt := false,
                    diffs := differences, actions := [.update], facts := some built.2 }
        else
          .ok { msg := "Service unchanged", changed := false, rebuilt := false,
                diffs := differences, actions := [], facts := some new_service }
  | none =>
    if state = "absent" then
      .ok { msg := "Service absent", changed := false, rebuilt := false, diffs := [],
            actions := [], facts := none }
    else
      if check_mode then
        .ok { msg := "Service created", changed := true, rebuilt := false, diffs := [],
              actions := [], facts := some new_service }
      else
        match buildDockerService new_service docker_networks with
        | .error e => .error e
        | .ok built =>
          .ok { msg := "Service created", changed := true, rebuilt := false, diffs := [],
                actions := [.create], facts := some built.2 }

/-- Whether an `Except` computation succeeded. -/
def isOkB {ε α : Type} : Except ε α → Bool
  | .ok _ => true
  | .error _ => false

/-- Concrete specs used to exercise the theorems below. -/
def specGlobal5 : DockerService := { image := "alpine", mode := "global", replicas := some 5 }

def specGlobalNone : DockerService := { image := "alpine", mode := "global", replicas := none }

def obsBase : DockerService := { image := "alpine", replicas := some 1 }

def newReplicas2 : DockerService := { image := "alpine", replicas := some 2 }

def newNet : DockerService := { image := "alpine", replicas := some 1, networks := some ["n1"] }

def newForce : DockerService := { image := "alpine", replicas := some 1, force_update := some 5 }

def netsOne : List NetworkNameId := [{ name := "n1", id := "id1" }]

/-- Publish-list predicates and concrete publish items for the
order-independence analysis. -/
def pubKeysDistinct (l : List PublishItem) : Prop :=
  l.Pairwise fun a b => pubKey a ≠ pubKey b

/-- The strict-on-keys refinement of `pubLeP` used to show sorted lists of
key-distinct items are unique. -/
def pubLtKeyP (a b : PublishItem) : Prop := pubLeP a b ∧ pubKey a ≠ pubKey b

def pubHost : PublishItem :=
  { protocol := "tcp", mode := some "host", published_port := 80, target_port := 80 }

def pubPlain : PublishItem :=
  { protocol := "tcp", mode := none, published_port := 80, target_port := 80 }

def specPubA : DockerService :=
  { image := "alpine", replicas := some 1, publish := some [pubHost, pubPlain] }

def specPubB : DockerService :=
  { image := "alpine", replicas := some 1, publish := some [pubPlain, pubHost] }

def obsPub : DockerService :=
  { image := "alpine", replicas := some 1, publish := some [pubPlain, pubHost] }

def pub80 : PublishItem :=
  { protocol := "tcp", mode := none, published_port := 80, target_port := 8080 }

def pub81 : PublishItem :=
  { protocol := "tcp", mode := none, published_port := 81, target_port := 8081 }

lemma addIf_append (c : Bool) (n : String) (t : List String) :
    addIf c n t = t ++ (if c then [n] else []) := by
  cases c <;> simp [addIf]

lemma mem_if_singleton {a n : String} {c : Bool} :
    a ∈ (if c then [n] else []) ↔ (c = true ∧ a = n) := by
  cases c <;> simp

/-- The tracker produced by `compare`, as one explicit concatenation (field
names in source order, each present exactly when its condition fires). -/
lemma compare_tracker (d o : DockerService) : (compare d o).2.1 =
    (if d.endpoint_mode.isSome && decide (d.endpoint_mode ≠ o.endpoint_mode)
      then ["endpoint_mode"] else [])
    ++ (if d.env.isSome && decide (d.env ≠ some (o.env.getD [])) then ["env"] else [])
    ++ (if d.log_driver.isSome && decide (d.log_driver ≠ o.log_driver)
      then ["log_driver"] else [])
    ++ (if d.log_driver_options.isSome &&
        decide (d.log_driver_options ≠ some (o.log_driver_options.getD []))
      then ["log_opt"] else [])
    ++ (if decide (d.mode ≠ o.mode) then ["mode"] else [])
    ++ (if d.mounts.isSome && decide (d.mounts ≠ some (o.mounts.getD []))
      then ["mounts"] else [])
    ++ (if d.configs.isSome && decide (d.configs ≠ some (o.configs.getD []))
      then ["configs"] else [])
    ++ (if d.secrets.isSome && decide (d.secrets ≠ some (o.secrets.getD []))
      then ["secrets"] else [])
    ++ (if d.networks.isSome && decide (d.networks ≠ some (o.networks.getD []))
      then ["networks"] else [])
    ++ (if decide (d.replicas ≠ o.replicas) then ["replicas"] else [])
    ++ (if d.command.isSome && decide (d.command ≠ some (o.command.getD []))
      then ["command"] else [])
    ++ (if d.args.isSome && decide (d.args ≠ some (o.args.getD [])) then ["args"] else [])
    ++ (if d.constraints.isSome && decide (d.constraints ≠ some (o.constraints.getD []))
      then ["constraints"] else [])
    ++ (if d.placement_preferences.isSome &&
        decide (d.placement_preferences ≠ some (o.placement_preferences.getD []))
      then ["placement_preferences"] else [])
    ++ (if d.groups.isSome && decide (d.groups ≠ some (o.groups.getD []))
      then ["groups"] else [])
    ++ (if d.labels.isSome && decide (d.labels ≠ some (o.labels.getD []))
      then ["labels"] else [])
    ++ (if d.limit_cpu.isSome && decide (d.limit_cpu ≠ o.limit_cpu) then ["limit_cpu"] else [])
    ++ (if d.limit_memory.isSome && decide (d.limit_memory ≠ o.limit_memory)
      then ["limit_memory"] else [])
    ++ (if d.reserve_cpu.isSome && decide (d.reserve_cpu ≠ o.reserve_cpu)
      then ["reserve_cpu"] else [])
    ++ (if d.reserve_memory.isSome && decide (d.reserve_memory ≠ o.reserve_memory)
      then ["reserve_memory"] else [])
    ++ (if d.container_labels.isSome &&
        decide (d.container_labels ≠ some (o.container_labels.getD []))
      then ["container_labels"] else [])
    ++ (if d.stop_signal.isSome && decide (d.stop_signal ≠ o.stop_signal)
      then ["stop_signal"] else [])
    ++ (if hasPublishChanged d.publish o.publish then ["publish"] else [])
    ++ (if d.restart_policy.isSome && decide (d.restart_policy ≠ o.restart_policy)
      then ["restart_policy"] else [])
    ++ (if d.restart_policy_attempts.isSome &&
        decide (d.restart_policy_attempts ≠ o.restart_policy_attempts)
      then ["restart_policy_attempts"] else [])
    ++ (if d.restart_policy_delay.isSome &&
        decide (d.restart_policy_delay ≠ o.restart_policy_delay)
      then ["restart_policy_delay"] else [])
    ++ (if d.restart_policy_window.isSome &&
        decide (d.restart_policy_window ≠ o.restart_policy_window)
      then ["restart_policy_window"] else [])
    ++ (if d.update_delay.isSome && decide (d.update_delay ≠ o.update_delay)
      then ["update_delay"] else [])
    ++ (if d.update_parallelism.isSome && decide (d.update_parallelism ≠ o.update_parallelism)
      then ["update_parallelism"] else [])
    ++ (if d.update_failure_action.isSome &&
        decide (d.update_failure_action ≠ o.update_failure_action)
      then ["update_failure_action"] else [])
    ++ (if d.update_monitor.isSome && decide (d.update_monitor ≠ o.update_monitor)
      then ["update_monitor"] else [])
    ++ (if d.update_max_failure_ratio.isSome &&
        decide (d.update_max_failure_ratio ≠ o.update_max_failure_ratio)
      then ["update_max_failure_ratio"] else [])
    ++ (if d.update_order.isSome && decide (d.update_order ≠ o.update_order)
      then ["update_order"] else [])
    ++ (if (hasImageChanged d.image o.image).1 then ["image"] else [])
    ++ (if userTruthy d.user && decide (d.user ≠ o.user) then ["user"] else [])
    ++ (if d.dns.isSome && decide (d.dns ≠ some (o.dns.getD [])) then ["dns"] else [])
    ++ (if d.dns_search.isSome && decide (d.dns_search ≠ some (o.dns_search.getD []))
      then ["dns_search"] else [])
    ++ (if d.dns_options.isSome && decide (d.dns_options ≠ some (o.dns_options.getD []))
      then ["dns_options"] else [])
    ++ (if hasHealthcheckChanged d o then ["healthcheck"] else [])
    ++ (if d.hostname.isSome && decide (d.hostname ≠ o.hostname) then ["hostname"] else [])
    ++ (if d.tty.isSome && decide (d.tty ≠ o.tty) then ["tty"] else [])
    ++ (if d.working_dir.isSome && decide (d.working_dir ≠ o.working_dir)
      then ["working_dir"] else []) := by
  simp only [compare, addIf_append, List.nil_append]

lemma userTruthy_eq_true {u : Option String} :
    userTruthy u = true ↔ u ≠ none ∧ u ≠ some "" := by
  cases u <;> simp [userTruthy]

lemma forceUpdateTruthy_eq_true {n : Option Int} :
    forceUpdateTruthy n = true ↔ n ≠ none ∧ n ≠ some 0 := by
  cases n <;> simp [forceUpdateTruthy]

lemma compare_changed_eq (d o : DockerService) :
    (compare d o).1 = (!(compare d o).2.1.isEmpty || forceUpdateTruthy d.force_update) := rfl

lemma compare_needs_rebuild_eq (d o : DockerService) :
    (compare d o).2.2.1 = (decide (d.mode ≠ o.mode) ||
      (d.networks.isSome && decide (d.networks ≠ some (o.networks.getD [])))) := rfl

lemma compare_force_update_eq (d o : DockerService) :
    (compare d o).2.2.2 = forceUpdateTruthy d.force_update := rfl

/-- C3: for every pair of service specs, `compare` returns `changed = true`
iff the difference tracker is non-empty or the desired spec's `force_update`
flag is set (truthy), and returns `needs_rebuild = true` iff the two modes
differ, or the desired networks list is specified and differs from the
observed one (with observed `None` read as the empty list); no other field
mismatch sets `needs_rebuild`. -/
theorem compare_changed_iff_and_rebuild_iff :
    ∀ d o : DockerService,
      ((compare d o).1 = true ↔
        ((compare d o).2.1 ≠ [] ∨ forceUpdateTruthy d.force_update = true))
      ∧ ((compare d o).2.2.1 = true ↔
        (d.mode ≠ o.mode ∨
          (d.networks ≠ none ∧ d.networks ≠ some (o.networks.getD [])))) := by
  intro d o
  constructor
  · rw [compare_changed_eq]
    simp
  · rw [compare_needs_rebuild_eq]
    simp [Option.isSome_iff_ne_none]

/-- C4 (counterexample): a desired `tty` explicitly set to `false` compared
against an observed `tty` of `None` DOES record a difference — boolean
attributes get no observed-null-to-zero replacement (`self.tty != os.tty`
compares directly, and `False != None` holds in Python). -/
theorem compare_tty_false_vs_null_records_difference :
    (compare { image := "alpine", replicas := some 1, tty := some false }
      { image := "alpine", replicas := some 1 }).2.1 = ["tty"] := by decide

/-- C4 (amended): `compare` records a difference for a field exactly when
the desired value is specified (not `None`) and differs from the observed
value, where the observed-null-to-zero-value replacement applies only to
the list- and map-valued attributes (`env`, `mounts`, `configs`, `secrets`,
`networks`, `command`, `args`, `constraints`, `placement_preferences`,
`groups`, `labels`, `container_labels`, `log_opt`, `dns`, `dns_search`,
`dns_options`); scalar attributes (strings, numbers, booleans such as
`tty`) are compared directly against the observed value, so a desired
boolean set to `false` against an observed null IS recorded; `mode` and
`replicas` are compared unconditionally, `user` is gated on truthiness
(non-empty) rather than mere presence, and `publish`, `image` and
`healthcheck` use their dedicated comparison routines. -/
theorem compare_records_field_iff :
    ∀ d o : DockerService,
      ("endpoint_mode" ∈ (compare d o).2.1 ↔
        (d.endpoint_mode ≠ none ∧ d.endpoint_mode ≠ o.endpoint_mode))
      ∧ ("env" ∈ (compare d o).2.1 ↔ (d.env ≠ none ∧ d.env ≠ some (o.env.getD [])))
      ∧ ("log_driver" ∈ (compare d o).2.1 ↔
        (d.log_driver ≠ none ∧ d.log_driver ≠ o.log_driver))
      ∧ ("log_opt" ∈ (compare d o).2.1 ↔
        (d.log_driver_options ≠ none ∧
          d.log_driver_options ≠ some (o.log_driver_options.getD [])))
      ∧ ("mode" ∈ (compare d o).2.1 ↔ d.mode ≠ o.mode)
      ∧ ("mounts" ∈ (compare d o).2.1 ↔
        (d.mounts ≠ none ∧ d.mounts ≠ some (o.mounts.getD [])))
      ∧ ("configs" ∈ (compare d o).2.1 ↔
        (d.configs ≠ none ∧ d.configs ≠ some (o.configs.getD [])))
      ∧ ("secrets" ∈ (compare d o).2.1 ↔
        (d.secrets ≠ none ∧ d.secrets ≠ some (o.secrets.getD [])))
      ∧ ("networks" ∈ (compare d o).2.1 ↔
        (d.networks ≠ none ∧ d.networks ≠ some (o.networks.getD [])))
      ∧ ("replicas" ∈ (compare d o).2.1 ↔ d.replicas ≠ o.replicas)
      ∧ ("command" ∈ (compare d o).2.1 ↔
        (d.command ≠ none ∧ d.command ≠ some (o.command.getD [])))
      ∧ ("args" ∈ (compare d o).2.1 ↔ (d.args ≠ none ∧ d.args ≠ some (o.args.getD [])))
      ∧ ("constraints" ∈ (compare d o).2.1 ↔
        (d.constraints ≠ none ∧ d.constraints ≠ some (o.constraints.getD [])))
      ∧ ("placement_preferences" ∈ (compare d o).2.1 ↔
        (d.placement_preferences ≠ none ∧
          d.placement_preferences ≠ some (o.placement_preferences.getD [])))
      ∧ ("groups" ∈ (compare d o).2.1 ↔
        (d.groups ≠ none ∧ d.groups ≠ some (o.groups.getD [])))
      ∧ ("labels" ∈ (compare d o).2.1 ↔
        (d.labels ≠ none ∧ d.labels ≠ some (o.labels.getD [])))
      ∧ ("limit_cpu" ∈ (compare d o).2.1 ↔ (d.limit_cpu ≠ none ∧ d.limit_cpu ≠ o.limit_cpu))
      ∧ ("limit_memory" ∈ (compare d o).2.1 ↔
        (d.limit_memory ≠ none ∧ d.limit_memory ≠ o.limit_memory))
      ∧ ("reserve_cpu" ∈ (compare d o).2.1 ↔
        (d.reserve_cpu ≠ none ∧ d.reserve_cpu ≠ o.reserve_cpu))
      ∧ ("reserve_memory" ∈ (compare d o).2.1 ↔
        (d.reserve_memory ≠ none ∧ d.reserve_memory ≠ o.reserve_memory))
      ∧ ("container_labels" ∈ (compare d o).2.1 ↔
        (d.container_labels ≠ none ∧
          d.container_labels ≠ some (o.container_labels.getD [])))
      ∧ ("stop_signal" ∈ (compare d o).2.1 ↔
        (d.stop_signal ≠ none ∧ d.stop_signal ≠ o.stop_signal))
      ∧ ("publish" ∈ (compare d o).2.1 ↔ hasPublishChanged d.publish o.publish = true)
      ∧ ("restart_policy" ∈ (compare d o).2.1 ↔
        (d.restart_policy ≠ none ∧ d.restart_policy ≠ o.restart_policy))
      ∧ ("restart_policy_attempts" ∈ (compare d o).2.1 ↔
        (d.restart_policy_attempts ≠ none ∧
          d.restart_policy_attempts ≠ o.restart_policy_attempts))
      ∧ ("restart_policy_delay" ∈ (compare d o).2.1 ↔
        (d.restart_policy_delay ≠ none ∧ d.restart_policy_delay ≠ o.restart_policy_delay))
      ∧ ("restart_policy_window" ∈ (compare d o).2.1 ↔
        (d.restart_policy_window ≠ none ∧ d.restart_policy_window ≠ o.restart_policy_window))
      ∧ ("update_delay" ∈ (compare d o).2.1 ↔
        (d.update_delay ≠ none ∧ d.update_delay ≠ o.update_delay))
      ∧ ("update_parallelism" ∈ (compare d o).2.1 ↔
        (d.update_parallelism ≠ none ∧ d.update_parallelism ≠ o.update_parallelism))
      ∧ ("update_failure_action" ∈ (compare d o).2.1 ↔
        (d.update_failure_action ≠ none ∧
          d.update_failure_action ≠ o.update_failure_action))
      ∧ ("update_monitor" ∈ (compare d o).2.1 ↔
        (d.update_monitor ≠ none ∧ d.update_monitor ≠ o.update_monitor))
      ∧ ("update_max_failure_ratio" ∈ (compare d o).2.1 ↔
        (d.update_max_failure_ratio ≠ none ∧
          d.update_max_failure_ratio ≠ o.update_max_failure_ratio))
      ∧ ("update_order" ∈ (compare d o).2.1 ↔
        (d.update_order ≠ none ∧ d.update_order ≠ o.update_order))
      ∧ ("image" ∈ (compare d o).2.1 ↔ (hasImageChanged d.image o.image).1 = true)
      ∧ ("user" ∈ (compare d o).2.1 ↔
        (d.user ≠ none ∧ d.user ≠ some "" ∧ d.user ≠ o.user))
      ∧ ("dns" ∈ (compare d o).2.1 ↔ (d.dns ≠ none ∧ d.dns ≠ some (o.dns.getD [])))
      ∧ ("dns_search" ∈ (compare d o).2.1 ↔
        (d.dns_search ≠ none ∧ d.dns_search ≠ some (o.dns_search.getD [])))
      ∧ ("dns_options" ∈ (compare d o).2.1 ↔
        (d.dns_options ≠ none ∧ d.dns_options ≠ some (o.dns_options.getD [])))
      ∧ ("healthcheck" ∈ (compare d o).2.1 ↔ hasHealthcheckChanged d o = true)
      ∧ ("hostname" ∈ (compare d o).2.1 ↔ (d.hostname ≠ none ∧ d.hostname ≠ o.hostname))
      ∧ ("tty" ∈ (compare d o).2.1 ↔ (d.tty ≠ none ∧ d.tty ≠ o.tty))
      ∧ ("working_dir" ∈ (compare d o).2.1 ↔
        (d.working_dir ≠ none ∧ d.working_dir ≠ o.working_dir)) := by
  intro d o
  rw [compare_tracker]
  simp only [List.mem_append, mem_if_singleton]
  simp [and_assoc, Option.isSome_iff_ne_none, userTruthy_eq_true]

/-- C6: image comparison strips the digest suffix from the observed
reference exactly when the desired reference contains no `@digest`;
in particular desired `alpine` vs observed `alpine@sha256:abc` is not a
change, while desired `alpine@sha256:def` vs observed `alpine@sha256:abc`
is a change. -/
theorem image_digest_stripping :
    (∀ d o : String, (hasImageChanged d o).1 = false ↔
      (if d.data.contains '@' then d = o
       else d = String.mk (o.data.takeWhile fun c => decide (c ≠ '@'))))
    ∧ (hasImageChanged "alpine" "alpine@sha256:abc").1 = false
    ∧ (hasImageChanged "alpine@sha256:def" "alpine@sha256:abc").1 = true := by
  refine ⟨fun d o => ?_, by decide, by decide⟩
  by_cases h : '@' ∈ d.data <;>
    simp [hasImageChanged, h]

/-- C7: the replicas value `-1` resolves to the observed service's replica
count when an observed service is supplied, and to `1` when none is; any
other replicas value is kept unchanged. -/
theorem replicas_sentinel_resolution :
    (∀ (n : Int) (old : Option DockerService),
      resolveReplicas n old =
        if n = -1 then
          (match old with | some o => o.replicas | none => some 1)
        else some n)
    ∧ resolveReplicas (-1) none = some 1
    ∧ resolveReplicas (-1) (some { image := "alpine", replicas := some 7 }) = some 7
    ∧ resolveReplicas 3 (some { image := "alpine", replicas := some 7 }) = some 3 :=
  ⟨fun n old => rfl, by decide, by decide, by decide⟩

/-- C10: a desired user that is the empty string never records a `user`
difference, for any observed spec — the comparison is gated on the
truthiness of the desired value, so an explicit empty user acts as
unspecified. -/
theorem empty_user_never_recorded :
    ∀ d o : DockerService, "user" ∉ (compare { d with user := some "" } o).2.1 := by
  intro d o
  rw [compare_tracker]
  simp [mem_if_singleton, userTruthy]

lemma runSafeAux_attemptsUsed_le {α : Type} (attempts : Nat → Except RunError α) :
    ∀ retries k sleeps : Nat,
      (runSafeAux attempts retries k sleeps).attemptsUsed ≤ k + retries + 1 := by
  intro retries
  induction retries with
  | zero =>
    intro k sleeps
    unfold runSafeAux
    cases h : attempts k with
    | ok a => simp
    | error e =>
      cases e with
      | api ex => simp
      | other msg => simp
  | succ r ih =>
    intro k sleeps
    unfold runSafeAux
    cases h : attempts k with
    | ok a => simp
    | error e =>
      cases e with
      | api ex =>
        dsimp only
        by_cases hb : strContainsSub conflictNeedle ex = true
        · rw [if_pos hb]
          have := ih (k + 1) (sleeps + 1)
          omega
        · rw [if_neg hb]
          simp
      | other msg => simp

/-- C1: `run_safe` retries the whole run only on an `APIError` whose
explanation contains `update out of sequence`, at most 2 additional times
with one 1-second sleep before each retry (so at most 3 attempts in
total); any other error propagates immediately after a single attempt, and
when every attempt raises a conflict error the last one propagates. -/
theorem run_safe_retry_policy {α : Type} :
    ∀ attempts : Nat → Except RunError α,
      ((runSafe attempts).attemptsUsed ≤ 3)
      ∧ (∀ (ex0 ex1 : List Char) (a : α),
          strContainsSub conflictNeedle ex0 = true →
          strContainsSub conflictNeedle ex1 = true →
          attempts 0 = .error (.api ex0) → attempts 1 = .error (.api ex1) →
          attempts 2 = .ok a →
          runSafe attempts = ⟨.ok a, 3, 2⟩)
      ∧ (∀ msg : List Char, attempts 0 = .error (.other msg) →
          runSafe attempts = ⟨.error (.other msg), 1, 0⟩)
      ∧ (∀ ex : List Char, strContainsSub conflictNeedle ex = false →
          attempts 0 = .error (.api ex) →
          runSafe attempts = ⟨.error (.api ex), 1, 0⟩)
      ∧ (∀ ex0 ex1 ex2 : List Char,
          strContainsSub conflictNeedle ex0 = true →
          strContainsSub conflictNeedle ex1 = true →
          attempts 0 = .error (.api ex0) → attempts 1 = .error (.api ex1) →
          attempts 2 = .error (.api ex2) →
          runSafe attempts = ⟨.error (.api ex2), 3, 2⟩) := by
  intro attempts
  refine ⟨?_, ?_, ?_, ?_, ?_⟩
  · have := runSafeAux_attemptsUsed_le attempts 2 0 0
    simpa [runSafe] using this
  · intro ex0 ex1 a hc0 hc1 h0 h1 h2
    simp [runSafe, runSafeAux, h0, h1, h2, hc0, hc1]
  · intro msg h0
    simp [runSafe, runSafeAux, h0]
  · intro ex hc h0
    simp [runSafe, runSafeAux, h0, hc]
  · intro ex0 ex1 ex2 hc0 hc1 h0 h1 h2
    simp [runSafe, runSafeAux, h0, h1, h2, hc0, hc1]

/-- Witness for C1: concrete attempt traces exercising each branch of
`run_safe_retry_policy` — two conflicts then success; an unrelated error;
an API error without the conflict needle; three conflicts. -/
theorem run_safe_retry_policy_witness :
    runSafe (fun k => if k < 2 then Except.error (RunError.api conflictNeedle)
        else Except.ok (7 : Nat)) = ⟨Except.ok 7, 3, 2⟩
    ∧ runSafe (fun _ => (Except.error (RunError.other "boom".data) : Except RunError Nat)) =
        ⟨Except.error (RunError.other "boom".data), 1, 0⟩
    ∧ runSafe (fun _ => (Except.error (RunError.api "other problem".data) :
        Except RunError Nat)) = ⟨Except.error (RunError.api "other problem".data), 1, 0⟩
    ∧ runSafe (fun _ => (Except.error (RunError.api conflictNeedle) : Except RunError Nat)) =
        ⟨Except.error (RunError.api conflictNeedle), 3, 2⟩ := by
  refine ⟨?_, ?_, ?_, ?_⟩
  · exact (run_safe_retry_policy _).2.1 conflictNeedle conflictNeedle 7
      (by decide) (by decide) rfl rfl rfl
  · exact (run_safe_retry_policy _).2.2.1 "boom".data rfl
  · exact (run_safe_retry_policy _).2.2.2.1 "other problem".data (by decide) rfl
  · exact (run_safe_retry_policy _).2.2.2.2 conflictNeedle conflictNeedle conflictNeedle
      (by decide) (by decide) rfl rfl rfl

/-- C9 (counterexample): a built spec is NOT immutable during the
request-construction steps — `build_service_mode` overwrites
`self.replicas` with `None` whenever the mode is `global`, so a spec with
`mode = "global"` and `replicas = 5` loses its replica count. -/
theorem build_service_mode_mutates_global_spec :
    (buildServiceMode specGlobal5).2.replicas = none ∧ specGlobal5.replicas = some 5 := by
  constructor
  · decide
  · decide

/-- C9 (amended): `compare` and the `build_*` steps are pure in this
embedding except for `build_service_mode`, which resets `replicas` to
`None` when the mode is `global` and leaves the spec untouched otherwise;
consequently the spec threaded through `build_docker_service` comes back
unchanged except for exactly that reset. -/
theorem build_steps_mutate_only_global_replicas :
    (∀ s : DockerService, (buildServiceMode s).2 =
      if s.mode = "global" then { s with replicas := none } else s)
    ∧ (∀ (s : DockerService) (nets : List NetworkNameId) (r : ServiceDoc × DockerService),
        buildDockerService s nets = .ok r →
        r.2 = if s.mode = "global" then { s with replicas := none } else s) := by
  constructor
  · intro s
    by_cases h : s.mode = "global" <;> simp [buildServiceMode, h]
  · intro s nets r h
    unfold buildDockerService at h
    dsimp only at h
    cases hb : buildNetworks (buildServiceMode s).2.networks nets with
    | error e =>
      rw [hb] at h
      simp at h
    | ok nws =>
      rw [hb] at h
      dsimp only at h
      injection h with h2
      subst h2
      by_cases hm : s.mode = "global" <;> simp [buildServiceMode, hm]

/-- Witness for C9: building the document of a concrete `global`-mode spec
succeeds and hands back the spec with its replica count erased. -/
theorem build_steps_mutate_only_global_replicas_witness :
    (buildDockerService specGlobal5 []).map (fun r => r.2) = Except.ok specGlobalNone := by
  cases hb : buildDockerService specGlobal5 [] with
  | error e =>
    exfalso
    have hok : isOkB (buildDockerService specGlobal5 []) = true := by decide
    rw [hb] at hok
    simp [isOkB] at hok
  | ok r =>
    have h2 := build_steps_mutate_only_global_replicas.2 specGlobal5 [] r hb
    simp only [Except.map, h2]
    simp [specGlobal5, specGlobalNone]

/-- C2: one reconciliation pass acts exactly per the state-machine table:
no observed service and target absent is a no-op with `changed = false`; no
observed service and target present creates and reports `changed = true`;
observed and target absent removes; observed and present with compare
changed and `needs_rebuild` removes then creates and reports
`rebuilt = true`; changed without `needs_rebuild` updates in place; no
recorded field difference but `force_update` set updates in place and
reports `changed = true` with `rebuilt = false` (because `compare` folds
the force flag into its changed result, that case flows through the update
branch); otherwise it is a no-op reported as unchanged.  In check mode the
mutating calls are skipped (empty action list). -/
theorem run_state_machine :
    ∀ (new cur : DockerService) (nets : List NetworkNameId),
      (∀ cm, runModel cm "absent" none new nets =
        .ok { msg := "Service absent", changed := false, rebuilt := false, diffs := [],
              actions := [], facts := none })
      ∧ (runModel true "present" none new nets =
          .ok { msg := "Service created", changed := true, rebuilt := false, diffs := [],
                actions := [], facts := some new })
      ∧ (∀ built, buildDockerService new nets = .ok built →
          runModel false "present" none new nets =
            .ok { msg := "Service created", changed := true, rebuilt := false, diffs := [],
                  actions := [.create], facts := some built.2 })
      ∧ (∀ cm, runModel cm "absent" (some cur) new nets =
          .ok { msg := "Service removed", changed := true, rebuilt := false, diffs := [],
                actions := if cm then [] else [.remove], facts := none })
      ∧ (∀ ds fu, compare new cur = (true, ds, true, fu) →
          runModel true "present" (some cur) new nets =
            .ok { msg := "Service rebuilt", changed := true, rebuilt := true, diffs := ds,
                  actions := [], facts := some new }
          ∧ ∀ built, buildDockerService new nets = .ok built →
              runModel false "present" (some cur) new nets =
                .ok { msg := "Service rebuilt", changed := true, rebuilt := true, diffs := ds,
                      actions := [.remove, .create], facts := some built.2 })
      ∧ (∀ ds fu, compare new cur = (true, ds, false, fu) →
          runModel true "present" (some cur) new nets =
            .ok { msg := "Service updated", changed := true, rebuilt := false, diffs := ds,
                  actions := [], facts := some new }
          ∧ ∀ built, buildDockerService new nets = .ok built →
              runModel false "present" (some cur) new nets =
                .ok { msg := "Service updated", changed := true, rebuilt := false, diffs := ds,
                      actions := [.update], facts := some built.2 })
      ∧ (compare new cur = (true, [], false, true) →
          runModel true "present" (some cur) new nets =
            .ok { msg := "Service updated", changed := true, rebuilt := false, diffs := [],
                  actions := [], facts := some new }
          ∧ ∀ built, buildDockerService new nets = .ok built →
              runModel false "present" (some cur) new nets =
                .ok { msg := "Service updated", changed := true, rebuilt := false, diffs := [],
                      actions := [.update], facts := some built.2 })
      ∧ (∀ ds nr, compare new cur = (false, ds, nr, false) →
          ∀ cm, runModel cm "present" (some cur) new nets =
            .ok { msg := "Service unchanged", changed := false, rebuilt := false, diffs := ds,
                  actions := [], facts := some new }) := by
  intro new cur nets
  refine ⟨fun cm => ?_, ?_, fun built hb => ?_, fun cm => ?_,
    fun ds fu hcmp => ⟨?_, fun built hb => ?_⟩,
    fun ds fu hcmp => ⟨?_, fun built hb => ?_⟩,
    fun hcmp => ⟨?_, fun built hb => ?_⟩,
    fun ds nr hcmp cm => ?_⟩
  · simp [runModel]
  · simp [runModel]
  · simp [runModel, hb]
  · cases cm <;> simp [runModel]
  · simp [runModel, hcmp]
  · simp [runModel, hcmp, hb]
  · simp [runModel, hcmp]
  · simp [runModel, hcmp, hb]
  · simp [runModel, hcmp]
  · simp [runModel, hcmp, hb]
  · cases cm <;> simp [runModel, hcmp]

/-- Witness for C2: the state-machine rows exercised at concrete inputs —
a remove, a rebuild (network change) in and out of check mode, an in-place
update (replica change), a forced update with no field difference, and an
unchanged pass. -/
theorem run_state_machine_witness :
    runModel false "absent" (some obsBase) newReplicas2 [] =
      .ok { msg := "Service removed", changed := true, rebuilt := false, diffs := [],
            actions := [.remove], facts := none }
    ∧ runModel true "present" (some obsBase) newNet netsOne =
      .ok { msg := "Service rebuilt", changed := true, rebuilt := true, diffs := ["networks"],
            actions := [], facts := some newNet }
    ∧ (runModel false "present" (some obsBase) newNet netsOne).map
        (fun r => (r.msg, r.actions)) = .ok ("Service rebuilt", [.remove, .create])
    ∧ (runModel false "present" (some obsBase) newReplicas2 []).map
        (fun r => (r.msg, r.changed, r.actions)) = .ok ("Service updated", true, [.update])
    ∧ runModel true "present" (some obsBase) newForce [] =
      .ok { msg := "Service updated", changed := true, rebuilt := false, diffs := [],
            actions := [], facts := some newForce }
    ∧ runModel false "present" (some obsBase) obsBase [] =
      .ok { msg := "Service unchanged", changed := false, rebuilt := false, diffs := [],
            actions := [], facts := some obsBase } := by
  refine ⟨?_, ?_, ?_, ?_, ?_, ?_⟩
  · exact (run_state_machine newReplicas2 obsBase []).2.2.2.1 false
  · exact ((run_state_machine newNet obsBase netsOne).2.2.2.2.1 ["networks"] false
      (by decide)).1
  · cases hb : buildDockerService newNet netsOne with
    | error e =>
      exfalso
      have hok : isOkB (buildDockerService newNet netsOne) = true := by decide
      rw [hb] at hok
      simp [isOkB] at hok
    | ok built =>
      rw [((run_state_machine newNet obsBase netsOne).2.2.2.2.1 ["networks"] false
        (by decide)).2 built hb]
      simp [Except.map]
  · cases hb : buildDockerService newReplicas2 [] with
    | error e =>
      exfalso
      have hok : isOkB (buildDockerService newReplicas2 []) = true := by decide
      rw [hb] at hok
      simp [isOkB] at hok
    | ok built =>
      rw [((run_state_machine newReplicas2 obsBase []).2.2.2.2.2.1 ["replicas"] false
        (by decide)).2 built hb]
      simp [Except.map]
  · exact ((run_state_machine newForce obsBase []).2.2.2.2.2.2.1 (by decide)).1
  · exact (run_state_machine obsBase obsBase []).2.2.2.2.2.2.2 [] false (by decide) false

/-- In check mode `runModel` always succeeds, issues nothing, and returns
the decision computed from `compare` alone. -/
lemma runModel_check_eq (st : String) (cur : Option DockerService) (new : DockerService)
    (nets : List NetworkNameId) :
    runModel true st cur new nets = .ok (
      match cur with
      | some c =>
        if st = "absent" then
          { msg := "Service removed", changed := true, rebuilt := false, diffs := [],
            actions := [], facts := none }
        else
          if (compare new c).1 then
            if (compare new c).2.2.1 then
              { msg := "Service rebuilt", changed := (compare new c).1, rebuilt := true,
                diffs := (compare new c).2.1, actions := [], facts := some new }
            else
              { msg := "Service updated", changed := (compare new c).1, rebuilt := false,
                diffs := (compare new c).2.1, actions := [], facts := some new }
          else
            if (compare new c).2.2.2 then
              { msg := "Service forcefully updated", changed := true, rebuilt := false,
                diffs := (compare new c).2.1, actions := [], facts := some new }
            else
              { msg := "Service unchanged", changed := false, rebuilt := false,
                diffs := (compare new c).2.1, actions := [], facts := some new }
      | none =>
        if st = "absent" then
          { msg := "Service absent", changed := false, rebuilt := false, diffs := [],
            actions := [], facts := none }
        else
          { msg := "Service created", changed := true, rebuilt := false, diffs := [],
            actions := [], facts := some new }) := by
  cases cur <;> (simp only [runModel]; split_ifs <;> rfl)

/-- C8: with check mode enabled a reconciliation pass issues no create,
update, or remove call for any combination of observed and desired state
(the pass always completes with an empty action list), while the returned
message, changed flag, rebuilt flag and field diff agree with those of the
non-check pass whenever the latter completes. -/
theorem check_mode_skips_mutations :
    ∀ (st : String) (cur : Option DockerService) (new : DockerService)
      (nets : List NetworkNameId),
      isOkB (runModel true st cur new nets) = true
      ∧ (∀ r, runModel true st cur new nets = .ok r → r.actions = [])
      ∧ (∀ r r', runModel true st cur new nets = .ok r →
          runModel false st cur new nets = .ok r' →
          r.msg = r'.msg ∧ r.changed = r'.changed ∧ r.rebuilt = r'.rebuilt ∧
            r.diffs = r'.diffs) := by
  intro st cur new nets
  refine ⟨?_, ?_, ?_⟩
  · rw [runModel_check_eq]
    rfl
  · intro r h
    rw [runModel_check_eq] at h
    injection h with h2
    subst h2
    cases cur with
    | none => split_ifs <;> rfl
    | some c => dsimp only; split_ifs <;> rfl
  · intro r r' h h'
    rw [runModel_check_eq] at h
    injection h with h2
    subst h2
    cases cur with
    | none =>
      by_cases hst : st = "absent"
      · have e2 : runModel false st none new nets =
            .ok { msg := "Service absent", changed := false, rebuilt := false, diffs := [],
                  actions := [], facts := none } := by
          simp [runModel, hst]
        rw [e2] at h'
        injection h' with h3
        subst h3
        dsimp only
        rw [if_pos hst]
        exact ⟨rfl, rfl, rfl, rfl⟩
      · cases hb : buildDockerService new nets with
        | error e =>
          have e2 : runModel false st none new nets = .error e := by
            simp [runModel, hst, hb]
          rw [e2] at h'
          cases h'
        | ok built =>
          have e2 : runModel false st none new nets =
              .ok { msg := "Service created", changed := true, rebuilt := false, diffs := [],
                    actions := [.create], facts := some built.2 } := by
            simp [runModel, hst, hb]
          rw [e2] at h'
          injection h' with h3
          subst h3
          dsimp only
          rw [if_neg hst]
          exact ⟨rfl, rfl, rfl, rfl⟩
    | some c =>
      by_cases hst : st = "absent"
      · have e2 : runModel false st (some c) new nets =
            .ok { msg := "Service removed", changed := true, rebuilt := false, diffs := [],
                  actions := [.remove], facts := none } := by
          simp [runModel, hst]
        rw [e2] at h'
        injection h' with h3
        subst h3
        dsimp only
        rw [if_pos hst]
        exact ⟨rfl, rfl, rfl, rfl⟩
      · rcases hcmp : compare new c with ⟨chg, ds, nr, fu⟩
        cases chg with
        | true =>
          cases nr with
          | true =>
            cases hb : buildDockerService new nets with
            | error e =>
              have e2 : runModel false st (some c) new nets = .error e := by
                simp [runModel, hst, hcmp, hb]
              rw [e2] at h'
              cases h'
            | ok built =>
              have e2 : runModel false st (some c) new nets =
                  .ok { msg := "Service rebuilt", changed := true, rebuilt := true,
                        diffs := ds, actions := [.remove, .create],
                        facts := some built.2 } := by
                simp [runModel, hst, hcmp, hb]
              rw [e2] at h'
              injection h' with h3
              subst h3
              dsimp only
              rw [if_neg hst, hcmp]
              exact ⟨rfl, rfl, rfl, rfl⟩
          | false =>
            cases hb : buildDockerService new nets with
            | error e =>
              have e2 : runModel false st (some c) new nets = .error e := by
                simp [runModel, hst, hcmp, hb]
              rw [e2] at h'
              cases h'
            | ok built =>
              have e2 : runModel false st (some c) new nets =
                  .ok { msg := "Service updated", changed := true, rebuilt := false,
                        diffs := ds, actions := [.update], facts := some built.2 } := by
                simp [runModel, hst, hcmp, hb]
              rw [e2] at h'
              injection h' with h3
              subst h3
              dsimp only
              rw [if_neg hst, hcmp]
              exact ⟨rfl, rfl, rfl, rfl⟩
        | false =>
          cases fu with
          | true =>
            cases hb : buildDockerService new nets with
            | error e =>
              have e2 : runModel false st (some c) new nets = .error e := by
                simp [runModel, hst, hcmp, hb]
              rw [e2] at h'
              cases h'
            | ok built =>
              have e2 : runModel false st (some c) new nets =
                  .ok { msg := "Service forcefully updated", changed := true,
                        rebuilt := false, diffs := ds, actions := [.update],
                        facts := some built.2 } := by
                simp [runModel, hst, hcmp, hb]
              rw [e2] at h'
              injection h' with h3
              subst h3
              dsimp only
              rw [if_neg hst, hcmp]
              exact ⟨rfl, rfl, rfl, rfl⟩
          | false =>
            have e2 : runModel false st (some c) new nets =
                .ok { msg := "Service unchanged", changed := false, rebuilt := false,
                      diffs := ds, actions := [], facts := some new } := by
              simp [runModel, hst, hcmp]
            rw [e2] at h'
            injection h' with h3
            subst h3
            dsimp only
            rw [if_neg hst, hcmp]
            exact ⟨rfl, rfl, rfl, rfl⟩

/-- Witness for C8: at a concrete changed input, the check-mode pass
returns an empty action list and the same message, flags and diff as the
real pass. -/
theorem check_mode_skips_mutations_witness :
    (runModel true "present" (some obsBase) newReplicas2 []).map (fun r => r.actions) =
      Except.ok []
    ∧ (runModel true "present" (some obsBase) newReplicas2 []).map
        (fun r => (r.msg, r.changed, r.rebuilt, r.diffs)) =
      (runModel false "present" (some obsBase) newReplicas2 []).map
        (fun r => (r.msg, r.changed, r.rebuilt, r.diffs)) := by
  cases h : runModel true "present" (some obsBase) newReplicas2 [] with
  | error e =>
    exfalso
    have hok := (check_mode_skips_mutations "present" (some obsBase) newReplicas2 []).1
    rw [h] at hok
    simp [isOkB] at hok
  | ok r =>
    cases h' : runModel false "present" (some obsBase) newReplicas2 [] with
    | error e =>
      exfalso
      have hok : isOkB (runModel false "present" (some obsBase) newReplicas2 []) = true := by
        decide
      rw [h'] at hok
      simp [isOkB] at hok
    | ok r' =>
      have h2 := (check_mode_skips_mutations "present" (some obsBase) newReplicas2 []).2.1 r h
      have h3 := (check_mode_skips_mutations "present" (some obsBase) newReplicas2 []).2.2
        r r' h h'
      simp [Except.map, h2, h3.1, h3.2.1, h3.2.2.1, h3.2.2.2]

lemma keyLt_asymm (x y : Int × Int × String) (h : keyLt x y = true) : keyLt y x = false := by
  rcases x with ⟨x1, x2, x3⟩
  rcases y with ⟨y1, y2, y3⟩
  simp only [keyLt] at h ⊢
  split_ifs at h ⊢ <;> first
    | rfl
    | omega
    | cases h
    | (simp only [decide_eq_true_eq] at h
       simp only [decide_eq_false_iff_not]
       exact lt_asymm h)

lemma keyLt_trans (x y z : Int × Int × String) (h1 : keyLt x y = true)
    (h2 : keyLt y z = true) : keyLt x z = true := by
  rcases x with ⟨x1, x2, x3⟩
  rcases y with ⟨y1, y2, y3⟩
  rcases z with ⟨z1, z2, z3⟩
  simp only [keyLt] at h1 h2 ⊢
  split_ifs at h1 h2 ⊢
  all_goals first
    | rfl
    | omega
    | cases h1
    | cases h2
    | (simp only [decide_eq_true_eq] at h1 h2 ⊢
       exact lt_trans h1 h2)

lemma keyLt_eq_of_not (x y : Int × Int × String) (h1 : keyLt x y = false)
    (h2 : keyLt y x = false) : x = y := by
  rcases x with ⟨x1, x2, x3⟩
  rcases y with ⟨y1, y2, y3⟩
  simp only [keyLt] at h1 h2
  split_ifs at h1 h2
  all_goals first
    | cases h1
    | cases h2
    | omega
    | (simp only [decide_eq_false_iff_not] at h1 h2
       have hx : x3.data = y3.data := le_antisymm (le_of_not_lt h2) (le_of_not_lt h1)
       have h3 : x3 = y3 := by
         cases x3
         cases y3
         exact congrArg String.mk (by simpa using hx)
       have hx1 : x1 = y1 := by omega
       have hx2 : x2 = y2 := by omega
       simp [hx1, hx2, h3])

lemma pubLeP_iff {a b : PublishItem} : pubLeP a b ↔ pubLt b a = false := by
  simp [pubLeP, pubLe]

lemma pubLeP_total : IsTotal PublishItem pubLeP := by
  constructor
  intro a b
  rcases h : pubLt b a with _ | _
  · exact Or.inl (pubLeP_iff.mpr h)
  · refine Or.inr (pubLeP_iff.mpr ?_)
    exact keyLt_asymm _ _ h

lemma pubLeP_trans : IsTrans PublishItem pubLeP := by
  constructor
  intro a b c hab hbc
  rw [pubLeP_iff] at hab hbc ⊢
  simp only [pubLt] at hab hbc ⊢
  by_cases hca : keyLt (pubKey c) (pubKey a) = true
  · by_cases hbcq : keyLt (pubKey b) (pubKey c) = true
    · have hba := keyLt_trans _ _ _ hbcq hca
      rw [hba] at hab
      simp at hab
    · have hbceq : pubKey b = pubKey c :=
        keyLt_eq_of_not _ _ (by simpa using hbcq) hbc
      rw [← hbceq] at hca
      rw [hca] at hab
      simp at hab
  · simpa using hca

lemma pubLtKeyP_antisymm : IsAntisymm PublishItem pubLtKeyP := by
  constructor
  intro a b h1 h2
  exfalso
  exact h1.2 (keyLt_eq_of_not _ _ (pubLeP_iff.mp h2.1) (pubLeP_iff.mp h1.1))

lemma sorted_strict_of_sorted_distinct {l : List PublishItem}
    (hs : List.Sorted pubLeP l) (hd : pubKeysDistinct l) : List.Sorted pubLtKeyP l :=
  hs.and hd

/-- Two permutations of a publish list with pairwise-distinct sort keys have
the same `sorted` image: the stable sort is then unique. -/
lemma insertionSort_eq_of_perm {p p' : List PublishItem} (hp : p.Perm p')
    (hd : pubKeysDistinct p) :
    List.insertionSort pubLeP p = List.insertionSort pubLeP p' := by
  haveI := pubLeP_total
  haveI := pubLeP_trans
  haveI := pubLtKeyP_antisymm
  have hsymm : Symmetric fun a b : PublishItem => pubKey a ≠ pubKey b :=
    fun a b h => h.symm
  have hd' : pubKeysDistinct p' := (hp.pairwise_iff @hsymm).mp hd
  have hperm : (List.insertionSort pubLeP p).Perm (List.insertionSort pubLeP p') :=
    (List.perm_insertionSort pubLeP p).trans
      (hp.trans (List.perm_insertionSort pubLeP p').symm)
  have hd1 : pubKeysDistinct (List.insertionSort pubLeP p) :=
    ((List.perm_insertionSort pubLeP p).pairwise_iff @hsymm).mpr hd
  have hd2 : pubKeysDistinct (List.insertionSort pubLeP p') :=
    ((List.perm_insertionSort pubLeP p').pairwise_iff @hsymm).mpr hd'
  exact List.eq_of_perm_of_sorted hperm
    (sorted_strict_of_sorted_distinct (List.sorted_insertionSort pubLeP p) hd1)
    (sorted_strict_of_sorted_distinct (List.sorted_insertionSort pubLeP p') hd2)

lemma hasPublishChanged_perm {p p' q q' : List PublishItem} (hp : p.Perm p')
    (hq : q.Perm q') (hdp : pubKeysDistinct p) (hdq : pubKeysDistinct q) :
    hasPublishChanged (some p) (some q) = hasPublishChanged (some p') (some q') := by
  unfold hasPublishChanged
  dsimp only [Option.getD]
  rw [insertionSort_eq_of_perm hp hdp, insertionSort_eq_of_perm hq hdq,
    hp.length_eq, hq.length_eq]

lemma compare_changed_publish_congr (d o : DockerService) (p p' q q' : List PublishItem)
    (h : hasPublishChanged (some p) (some q) = hasPublishChanged (some p') (some q')) :
    (compare { d with publish := some p } { o with publish := some q }).1 =
      (compare { d with publish := some p' } { o with publish := some q' }).1 := by
  rw [compare_changed_eq, compare_changed_eq, compare_tracker, compare_tracker]
  dsimp only [hasHealthcheckChanged]
  rw [h]

/-- C5 (counterexample): permuting the desired publish list CAN change the
`changed` verdict when two items share the `(published_port, target_port,
protocol)` sort key — the sort is stable, so the pairing of equal-key items
follows input order, and the mode sub-field is ignored only for pairs whose
desired item has no mode.  Here desired `[host-mode, no-mode]` against
observed `[no-mode, host-mode]` is reported changed, while the permuted
desired `[no-mode, host-mode]` is reported unchanged. -/
theorem publish_order_dependence_with_duplicate_keys :
    [pubHost, pubPlain].Perm [pubPlain, pubHost]
    ∧ specPubA.publish = some [pubHost, pubPlain]
    ∧ specPubB.publish = some [pubPlain, pubHost]
    ∧ (compare specPubA obsPub).1 = true
    ∧ (compare specPubB obsPub).1 = false := by
  refine ⟨List.Perm.swap _ _ _, rfl, rfl, by decide, by decide⟩

/-- C5 (amended): permuting the desired or the observed publish list does
not change the `changed` verdict of `compare`, provided the
`(published_port, target_port, protocol)` sort keys are pairwise distinct
within the desired list and within the observed list (ports are sorted by
that key on both sides before element-wise comparison, with the `mode`
sub-field excluded for any pair whose desired element does not specify
`mode`; with duplicate keys the stable sort makes the pairing
order-sensitive, see the counterexample). -/
theorem publish_order_independent_with_distinct_keys :
    ∀ (d o : DockerService) (p p' q q' : List PublishItem),
      p.Perm p' → q.Perm q' → pubKeysDistinct p → pubKeysDistinct q →
      (compare { d with publish := some p } { o with publish := some q }).1 =
        (compare { d with publish := some p' } { o with publish := some q' }).1 := by
  intro d o p p' q q' hp hq hdp hdq
  exact compare_changed_publish_congr d o p p' q q'
    (hasPublishChanged_perm hp hq hdp hdq)

/-- Witness for C5: two distinct-key publish items, both lists permuted,
same verdict. -/
theorem publish_order_independent_witness :
    (compare { obsBase with publish := some [pub80, pub81] }
        { obsBase with publish := some [pub81, pub80] }).1 =
      (compare { obsBase with publish := some [pub81, pub80] }
        { obsBase with publish := some [pub80, pub81] }).1 :=
  publish_order_independent_with_distinct_keys obsBase obsBase
    [pub80, pub81] [pub81, pub80] [pub81, pub80] [pub80, pub81]
    (List.Perm.swap _ _ _) (List.Perm.swap _ _ _)
    (by unfold pubKeysDistinct; decide) (by unfold pubKeysDistinct; decide)

end DockerSwarm
